import Mathlib

/-!  Verification of the temperature-analysis core of a Streamlit weather app
     (`src/functions.py`, plus the live-reading seasonal cross-check of
     `src/app.py`).

     Numeric columns are embedded as exact rationals.  The pandas rolling
     standard deviation is the pointwise square root of the rolling sample
     variance (ddof = 1, NaN below two observations); since the square root is
     injective and NaN-preserving on the values involved, presence and equality
     of the std column coincide with presence and equality of the variance
     column, which we carry exactly (see `sampleVarQ`).  `none` embeds NaN /
     an absent value. -/

/-- One row of the input dataset: the required columns of the tabular input. -/
structure Obs where
  city : String
  timestamp : ℤ
  temperature : ℚ
  season : String
deriving DecidableEq, Repr

instance : Inhabited Obs := ⟨⟨"", 0, 0, ""⟩⟩

/-- A dataset row extended with the two rolling columns produced by the
    Rolling Statistics Engine.  `moving_avg` holds the centered rolling mean;
    `moving_std` holds the rolling dispersion column (see `sampleVarQ`). -/
structure RollingRow where
  obs : Obs
  moving_avg : Option ℚ
  moving_std : Option ℚ
deriving DecidableEq, Repr

instance : Inhabited RollingRow := ⟨⟨default, none, none⟩⟩

/-- A row further extended with the `anomaly` column of `detect_anomalies`. -/
structure AnnRow extends RollingRow where
  anomaly : Bool
deriving DecidableEq, Repr

instance : Inhabited AnnRow := ⟨⟨default, false⟩⟩

/-- `pd.Series.unique()`: the distinct values, in first-appearance order. -/
def uniqList (l : List String) : List String :=
  l.foldl (fun acc x => if x ∈ acc then acc else acc ++ [x]) []

/-- `data[data["city"] == c]`: the rows of one city, in original order. -/
def cityFilter (data : List Obs) (c : String) : List Obs :=
  data.filter (fun r => decide (r.city = c))

/-- The comparison used by `sort_values("timestamp")`. -/
def tsLE (a b : Obs) : Prop := a.timestamp ≤ b.timestamp

instance : DecidableRel tsLE := fun a b =>
  inferInstanceAs (Decidable (a.timestamp ≤ b.timestamp))

/-- `sort_values("timestamp")` on one city block.  (The input timestamps are
    unique per city by assumption, so stability of the sort is immaterial.) -/
def sortByTimestamp (l : List Obs) : List Obs := List.insertionSort tsLE l

/-- The temperatures inside the pandas fixed centered window at label `i`:
    with `offset = (W-1)/2` the half-open window is `[i+1+offset-W, i+1+offset)`
    clipped to the series (`FixedWindowIndexer` with `center=True`). -/
def centeredWindow (W : ℕ) (xs : List ℚ) (i : ℕ) : List ℚ :=
  (xs.drop (i + 1 + (W - 1) / 2 - W)).take
    (min (i + 1 + (W - 1) / 2) xs.length - (i + 1 + (W - 1) / 2 - W))

/-- `Series.rolling(window=W, center=True)` followed by the aggregation `f`:
    a position whose clipped window holds fewer than `min_periods = W`
    observations yields NaN. -/
def rollingApply (f : List ℚ → Option ℚ) (W : ℕ) (xs : List ℚ) : List (Option ℚ) :=
  (List.range xs.length).map fun i =>
    if W ≤ (centeredWindow W xs i).length then f (centeredWindow W xs i) else none

/-- `.mean()` of one window. -/
def meanQ (xs : List ℚ) : Option ℚ :=
  if xs.length = 0 then none else some (xs.sum / (xs.length : ℚ))

/-- The rolling dispersion aggregation: `.std()` computes the sample standard
    deviation (ddof = 1), NaN on fewer than two observations.  We carry the
    sample variance, of which the code column is the pointwise square root. -/
def sampleVarQ (xs : List ℚ) : Option ℚ :=
  if xs.length < 2 then none
  else some (((xs.map (fun x => (x - xs.sum / (xs.length : ℚ)) ^ 2)).sum) / ((xs.length : ℚ) - 1))

/-- Pair a sorted city block with the two rolling arrays: the row at position
    `k` of the block receives the array entries at index `k` (index-aligned
    column assignment on the sorted frame). -/
def numberFromObs (avgs vars : List (Option ℚ)) : ℕ → List Obs → List RollingRow
  | _, [] => []
  | k, r :: rest =>
    ⟨r, avgs.getD k none, vars.getD k none⟩ :: numberFromObs avgs vars (k + 1) rest

/-- `process_city_for_parallel`, generic in the two window aggregations:
    sort one city block by timestamp and attach the rolling columns. -/
def process_city_with (f g : List ℚ → Option ℚ) (W : ℕ) (city_data : List Obs) :
    List RollingRow :=
  numberFromObs (rollingApply f W ((sortByTimestamp city_data).map (fun r => r.temperature)))
    (rollingApply g W ((sortByTimestamp city_data).map (fun r => r.temperature)))
    0 (sortByTimestamp city_data)

/-- `process_city_for_parallel(args)`: sort one city block by timestamp and
    attach the centered rolling mean and dispersion columns. -/
def process_city_for_parallel (W : ℕ) (city_data : List Obs) : List RollingRow :=
  process_city_with meanQ sampleVarQ W city_data

/-- `calculate_moving_average_parallel`, generic in the aggregations: one
    block per distinct city (first-appearance order, as `unique()`), each
    block processed in isolation, results concatenated in block order
    (`executor.map` keeps the order of `args_list`; `pd.concat` keeps it). -/
def calculate_moving_average_parallel_with (f g : List ℚ → Option ℚ)
    (data : List Obs) (W : ℕ) : List RollingRow :=
  (uniqList (data.map (fun r => r.city))).flatMap
    (fun c => process_city_with f g W (cityFilter data c))

/-- `calculate_moving_average_parallel(data, window_size)`. -/
def calculate_moving_average_parallel (data : List Obs) (W : ℕ) : List RollingRow :=
  calculate_moving_average_parallel_with meanQ sampleVarQ data W

/-- One loop iteration of the sequential implementation writes the rolling
    arrays of city `c` positionally (`.values`) into the masked rows in their
    current frame order: the k-th row of the mask receives array entry k. -/
def scatterCity (c : String) (avgs vars : List (Option ℚ)) :
    ℕ → List RollingRow → List RollingRow
  | _, [] => []
  | k, r :: rest =>
    if r.obs.city = c then
      ⟨r.obs, avgs.getD k none, vars.getD k none⟩ :: scatterCity c avgs vars (k + 1) rest
    else
      r :: scatterCity c avgs vars k rest

/-- One iteration of the sequential per-city loop: compute the rolling arrays
    on the timestamp-sorted city block, then assign them positionally into the
    rows of the mask `result_data["city"] == c` in original order. -/
def assignCitySeq (f g : List ℚ → Option ℚ) (W : ℕ)
    (rows : List RollingRow) (c : String) : List RollingRow :=
  scatterCity c
    (rollingApply f W
      ((sortByTimestamp ((rows.filter (fun r => decide (r.obs.city = c))).map (fun r => r.obs))).map
        (fun r => r.temperature)))
    (rollingApply g W
      ((sortByTimestamp ((rows.filter (fun r => decide (r.obs.city = c))).map (fun r => r.obs))).map
        (fun r => r.temperature)))
    0 rows

/-- `calculate_moving_average_sequential`, generic in the aggregations: start
    from a copy of the data (columns yet unset) and run the per-city loop. -/
def calculate_moving_average_sequential_with (f g : List ℚ → Option ℚ)
    (data : List Obs) (W : ℕ) : List RollingRow :=
  (uniqList (data.map (fun r => r.city))).foldl (assignCitySeq f g W)
    (data.map (fun r => ⟨r, none, none⟩))

/-- `calculate_moving_average_sequential(data, window_size)`. -/
def calculate_moving_average_sequential (data : List Obs) (W : ℕ) : List RollingRow :=
  calculate_moving_average_sequential_with meanQ sampleVarQ data W

/-- The envelope test of `detect_anomalies` on one valid row: temperature
    strictly outside `moving_avg ± threshold * moving_std`. -/
def isAnomalyVal (k : ℚ) (r : RollingRow) : Bool :=
  match r.moving_avg, r.moving_std with
  | some a, some s =>
      decide (r.obs.temperature > a + k * s) || decide (r.obs.temperature < a - k * s)
  | _, _ => false

/-- Positional write of a computed boolean array into the rows of a mask
    (`data.loc[mask, "anomaly"] = values`): each masked row consumes the next
    array entry, other rows are untouched. -/
def scatterAnom (p : AnnRow → Bool) : List Bool → List AnnRow → List AnnRow
  | _, [] => []
  | vals, r :: rest =>
    if p r then { r with anomaly := vals.headD false } :: scatterAnom p vals.tail rest
    else r :: scatterAnom p vals rest

/-- The mask `city_mask & valid_mask` of one `detect_anomalies` iteration. -/
def anomalyMask (c : String) (r : AnnRow) : Bool :=
  decide (r.obs.city = c) && r.moving_avg.isSome && r.moving_std.isSome

/-- One iteration of the `detect_anomalies` city loop: if both rolling columns
    exist on the frame, compute the envelope test over the valid rows of the
    city and write it positionally into the masked positions. -/
def detectStep (hasAvg hasStd : Bool) (k : ℚ) (rows : List AnnRow) (c : String) :
    List AnnRow :=
  if hasAvg && hasStd then
    scatterAnom (anomalyMask c)
      ((rows.filter (anomalyMask c)).map (fun r => isAnomalyVal k r.toRollingRow)) rows
  else rows

/-- `detect_anomalies(data, threshold)`: copy the frame, initialise the
    `anomaly` column to `False`, then run the per-city loop.  `hasAvg` and
    `hasStd` embed whether the `moving_avg` / `moving_std` columns exist on
    the input frame. -/
def detect_anomalies (hasAvg hasStd : Bool) (data : List RollingRow) (k : ℚ) :
    List AnnRow :=
  (uniqList (data.map (fun r => r.obs.city))).foldl (detectStep hasAvg hasStd k)
    (data.map (fun r => ⟨r, false⟩))

/-- The number of rows flagged `anomaly=True` by `detect_anomalies` on a frame
    that carries both rolling columns. -/
def anomalyCount (data : List RollingRow) (k : ℚ) : ℕ :=
  ((detect_anomalies true true data k).filter (fun r => r.anomaly)).length

/-- Rounding of a rational to the nearest integer, ties to even (the rounding
    of numpy / pandas `round`). -/
def roundHalfEven (x : ℚ) : ℤ :=
  if x - ⌊x⌋ < 1/2 then ⌊x⌋
  else if (1 : ℚ)/2 < x - ⌊x⌋ then ⌊x⌋ + 1
  else if ⌊x⌋ % 2 = 0 then ⌊x⌋ else ⌊x⌋ + 1

/-- `.round(2)`. -/
def round2 (q : ℚ) : ℚ := (roundHalfEven (100 * q) : ℚ) / 100

/-- `round(√q, 2)` computed exactly for `q ≥ 0`: `⌊100·√q⌋` via the integer
    square root, then ties to even. -/
def sqrtRound2 (q : ℚ) : ℚ :=
  if 10000 * q < ((Nat.sqrt (10000 * q.num.toNat * q.den) / q.den : ℕ) + 1/2 : ℚ) ^ 2 then
    ((Nat.sqrt (10000 * q.num.toNat * q.den) / q.den : ℕ) : ℚ) / 100
  else if (((Nat.sqrt (10000 * q.num.toNat * q.den) / q.den : ℕ) + 1/2 : ℚ)) ^ 2 < 10000 * q then
    (((Nat.sqrt (10000 * q.num.toNat * q.den) / q.den : ℕ) : ℚ) + 1) / 100
  else if (Nat.sqrt (10000 * q.num.toNat * q.den) / q.den) % 2 = 0 then
    ((Nat.sqrt (10000 * q.num.toNat * q.den) / q.den : ℕ) : ℚ) / 100
  else (((Nat.sqrt (10000 * q.num.toNat * q.den) / q.den : ℕ) : ℚ) + 1) / 100

/-- One output row of `calculate_seasonal_stats` after the columns are
    flattened (`temperature_mean`, …) and the index is reset. -/
structure SeasonalRow where
  city : String
  season : String
  temperature_mean : ℚ
  temperature_std : Option ℚ
  temperature_min : ℚ
  temperature_max : ℚ
  temperature_count : ℕ
deriving DecidableEq, Repr

/-- Lexicographic order on `(city, season)` keys (`groupby` sorts its keys). -/
def keyLE (a b : String × String) : Prop :=
  a.1 < b.1 ∨ (a.1 = b.1 ∧ a.2 ≤ b.2)

instance : DecidableRel keyLE := fun a b =>
  inferInstanceAs (Decidable (a.1 < b.1 ∨ (a.1 = b.1 ∧ a.2 ≤ b.2)))

/-- The group keys of `groupby(["city", "season"])`: the distinct pairs
    present in the input, sorted. -/
def groupKeys (data : List Obs) : List (String × String) :=
  List.insertionSort keyLE ((data.map (fun r => (r.city, r.season))).dedup)

def listMin : List ℚ → ℚ
  | [] => 0
  | x :: xs => xs.foldl min x

def listMax : List ℚ → ℚ
  | [] => 0
  | x :: xs => xs.foldl max x

/-- `calculate_seasonal_stats(data)`: group by `(city, season)` and aggregate
    the temperature column by mean, std (sample standard deviation, NaN for a
    single observation), min, max and count, each value rounded to two decimal
    places.  One row per group present in the input. -/
def calculate_seasonal_stats (data : List Obs) : List SeasonalRow :=
  (groupKeys data).map fun p =>
    { city := p.1
      season := p.2
      temperature_mean := round2
        ((((data.filter (fun r => decide (r.city = p.1 ∧ r.season = p.2))).map
            (fun r => r.temperature)).sum) /
          (((data.filter (fun r => decide (r.city = p.1 ∧ r.season = p.2))).length : ℚ)))
      temperature_std :=
        if ((data.filter (fun r => decide (r.city = p.1 ∧ r.season = p.2))).length) < 2 then none
        else some (sqrtRound2
          ((((data.filter (fun r => decide (r.city = p.1 ∧ r.season = p.2))).map
              (fun r => r.temperature)).map
              (fun x =>
                (x - (((data.filter (fun r => decide (r.city = p.1 ∧ r.season = p.2))).map
                        (fun r => r.temperature)).sum) /
                      (((data.filter (fun r => decide (r.city = p.1 ∧ r.season = p.2))).length : ℚ))) ^ 2)).sum /
            ((((data.filter (fun r => decide (r.city = p.1 ∧ r.season = p.2))).length : ℚ)) - 1)))
      temperature_min := round2
        (listMin ((data.filter (fun r => decide (r.city = p.1 ∧ r.season = p.2))).map
          (fun r => r.temperature)))
      temperature_max := round2
        (listMax ((data.filter (fun r => decide (r.city = p.1 ∧ r.season = p.2))).map
          (fun r => r.temperature)))
      temperature_count :=
        (data.filter (fun r => decide (r.city = p.1 ∧ r.season = p.2))).length }

/-- A JSON value, as decoded by `response.json()`. -/
inductive JValue where
  | jnull
  | jbool (b : Bool)
  | jnum (q : ℚ)
  | jstr (s : String)
  | jarr (xs : List JValue)
  | jobj (fields : List (String × JValue))
deriving Repr

/-- Outcome of one HTTP attempt against the weather endpoint: either some
    exception was raised before a decoded response was available (network
    failure, timeout, undecodable body), or a decoded `(status, body)` pair. -/
inductive FetchOutcome where
  | raised (msg : String)
  | response (status : ℕ) (body : JValue)

/-- `d.get(k)`: `none` when the key is missing or the value is not an object. -/
def jget (j : JValue) (k : String) : Option JValue :=
  match j with
  | .jobj fields => fields.lookup k
  | _ => none

/-- `d[k]` on a decoded value: missing keys and non-objects raise, with a
    message modelled after the Python exception text. -/
def pyIndex (j : JValue) (k : String) : Except String JValue :=
  match j with
  | .jobj fields =>
    match fields.lookup k with
    | some v => Except.ok v
    | none => Except.error ("KeyError: " ++ k)
  | _ => Except.error ("TypeError: value is not subscriptable by " ++ k)

/-- `xs[0]` on a decoded value. -/
def pyFirst (j : JValue) : Except String JValue :=
  match j with
  | .jarr (x :: _) => Except.ok x
  | .jarr [] => Except.error "IndexError: list index out of range"
  | _ => Except.error "TypeError: value is not indexable"

/-- The success record built from a 200 response body. -/
structure LiveSuccess where
  city : String
  temperature : JValue
  feels_like : JValue
  humidity : JValue
  pressure : JValue
  description : JValue
  icon : JValue
  timestamp : ℤ
deriving Repr

/-- The tagged result of one live-temperature call: a success record, or a
    failure with a human-readable error and an optional upstream code
    (`cod` is present on the record only in the non-200 branch). -/
inductive FetchResult where
  | success (rec : LiveSuccess)
  | failure (error : JValue) (cod : Option JValue)
deriving Repr

/-- The `return { "temperature": data["main"]["temp"], … }` literal of the 200
    branch: the first missing field raises, to be caught by the handler. -/
def extractSuccess (now : ℤ) (city : String) (body : JValue) :
    Except String LiveSuccess := do
  let mainObj ← pyIndex body "main"
  let temp ← pyIndex mainObj "temp"
  let feels ← pyIndex mainObj "feels_like"
  let hum ← pyIndex mainObj "humidity"
  let pres ← pyIndex mainObj "pressure"
  let weather ← pyIndex body "weather"
  let w0 ← pyFirst weather
  let desc ← pyIndex w0 "description"
  let ic ← pyIndex w0 "icon"
  Except.ok ⟨city, temp, feels, hum, pres, desc, ic, now⟩

/-- `get_current_temperature_sync(api_key, city)`, with the network modelled
    by the attempt outcome and the wall clock by `now`:  every exception on
    the request / decode / extraction path is caught and returned as a
    failure record; a non-200 status returns the body message (default
    `"Unknown error"`) and the body `cod` field. -/
def get_current_temperature_sync (now : ℤ) (city : String) (outcome : FetchOutcome) :
    FetchResult :=
  match outcome with
  | .raised msg => .failure (.jstr msg) none
  | .response status body =>
    if status = 200 then
      match extractSuccess now city body with
      | .ok rec => .success rec
      | .error e => .failure (.jstr e) none
    else
      .failure ((jget body "message").getD (.jstr "Unknown error")) (jget body "cod")

/-- `get_current_temperature_async(session, api_key, city)`: identical
    request/branch/except structure to the synchronous variant. -/
def get_current_temperature_async (now : ℤ) (city : String) (outcome : FetchOutcome) :
    FetchResult :=
  match outcome with
  | .raised msg => .failure (.jstr msg) none
  | .response status body =>
    if status = 200 then
      match extractSuccess now city body with
      | .ok rec => .success rec
      | .error e => .failure (.jstr e) none
    else
      .failure ((jget body "message").getD (.jstr "Unknown error")) (jget body "cod")

/-- `get_multiple_temperatures_async(api_key, cities)`: one task per city over
    a shared session, gathered in input order (`asyncio.gather` returns the
    results in the order of its arguments); `env` maps each city to the
    outcome of its single request attempt. -/
def get_multiple_temperatures_async (now : ℤ) (env : String → FetchOutcome)
    (cities : List String) : List FetchResult :=
  cities.map (fun c => get_current_temperature_async now c (env c))

/-- The seasonal cross-check of the tab3 sync-fetch handler in `app.py`:
    `is_anomalous = current_temp > season_mean + 2 * season_std or
     current_temp < season_mean - 2 * season_std`. -/
def is_anomalous (current_temp season_mean season_std : ℚ) : Bool :=
  decide (current_temp > season_mean + 2 * season_std) ||
  decide (current_temp < season_mean - 2 * season_std)

/-! ### Helper lemmas: rolling windows -/

theorem numberFromObs_length (a v : List (Option ℚ)) :
    ∀ (k : ℕ) (l : List Obs), (numberFromObs a v k l).length = l.length
  | _, [] => rfl
  | k, _ :: rest => by
    simp [numberFromObs, numberFromObs_length a v (k + 1) rest]

theorem numberFromObs_getD (a v : List (Option ℚ)) :
    ∀ (l : List Obs) (k i : ℕ), i < l.length →
      (numberFromObs a v k l).getD i default =
        ⟨l.getD i default, a.getD (k + i) none, v.getD (k + i) none⟩
  | [], _, i, h => by simp at h
  | r :: rest, k, 0, _ => by simp [numberFromObs]
  | r :: rest, k, i + 1, h => by
    have h2 : i < rest.length := by simpa using Nat.lt_of_succ_lt_succ h
    simp only [numberFromObs, List.getD_cons_succ]
    rw [numberFromObs_getD a v rest (k + 1) i h2]
    have h3 : k + 1 + i = k + (i + 1) := by omega
    rw [h3]

theorem rollingApply_getD (f : List ℚ → Option ℚ) (W : ℕ) (xs : List ℚ) (i : ℕ)
    (h : i < xs.length) :
    (rollingApply f W xs).getD i none =
      if W ≤ (centeredWindow W xs i).length then f (centeredWindow W xs i) else none := by
  simp [rollingApply, List.getD_eq_getElem?_getD, List.getElem?_range h]

theorem centeredWindow_length (W : ℕ) (xs : List ℚ) (i : ℕ) :
    (centeredWindow W xs i).length =
      min (min (i + 1 + (W - 1) / 2) xs.length - (i + 1 + (W - 1) / 2 - W))
          (xs.length - (i + 1 + (W - 1) / 2 - W)) := by
  simp [centeredWindow]

theorem centeredWindow_full_iff (W : ℕ) (hW : 1 ≤ W) (xs : List ℚ) (i : ℕ) :
    W ≤ (centeredWindow W xs i).length ↔
      (W / 2 ≤ i ∧ i + (W - 1) / 2 < xs.length) := by
  rw [centeredWindow_length]; omega

theorem centeredWindow_length_le (W : ℕ) (xs : List ℚ) (i : ℕ) :
    (centeredWindow W xs i).length ≤ W := by
  rw [centeredWindow_length]; omega

theorem process_with_getD (f g : List ℚ → Option ℚ) (W : ℕ) (rows : List Obs) (i : ℕ)
    (hi : i < rows.length) :
    (process_city_with f g W rows).getD i default =
      ⟨(sortByTimestamp rows).getD i default,
       (rollingApply f W ((sortByTimestamp rows).map (fun r => r.temperature))).getD i none,
       (rollingApply g W ((sortByTimestamp rows).map (fun r => r.temperature))).getD i none⟩ := by
  have hlen : (sortByTimestamp rows).length = rows.length := by
    simp [sortByTimestamp, List.length_insertionSort]
  rw [process_city_with, numberFromObs_getD _ _ _ 0 i (by omega)]
  simp

theorem process_presence (W : ℕ) (hW : 1 ≤ W) (rows : List Obs) (i : ℕ)
    (hi : i < rows.length) :
    (((process_city_for_parallel W rows).getD i default).moving_avg.isSome
        = decide (W / 2 ≤ i ∧ i + (W - 1) / 2 < rows.length))
    ∧ (((process_city_for_parallel W rows).getD i default).moving_std.isSome
        = decide (2 ≤ W ∧ W / 2 ≤ i ∧ i + (W - 1) / 2 < rows.length)) := by
  have hlen : (sortByTimestamp rows).length = rows.length := by
    simp [sortByTimestamp, List.length_insertionSort]
  have hmap : ((sortByTimestamp rows).map (fun r => r.temperature)).length = rows.length := by
    simp [hlen]
  rw [process_city_for_parallel, process_with_getD _ _ _ _ _ hi]
  rw [rollingApply_getD _ _ _ _ (by omega), rollingApply_getD _ _ _ _ (by omega)]
  by_cases hc : W / 2 ≤ i ∧ i + (W - 1) / 2 < rows.length
  · have hfull : W ≤ (centeredWindow W ((sortByTimestamp rows).map (fun r => r.temperature)) i).length := by
      rw [centeredWindow_full_iff W hW]
      omega
    have hexact : (centeredWindow W ((sortByTimestamp rows).map (fun r => r.temperature)) i).length = W :=
      le_antisymm (centeredWindow_length_le _ _ _) hfull
    constructor
    · simp only [if_pos hfull, meanQ, hexact]
      simp [hc]
      omega
    · simp only [if_pos hfull, sampleVarQ, hexact]
      by_cases h2 : 2 ≤ W
      · simp [if_neg (by omega : ¬ W < 2), h2, hc]
      · simp [if_pos (by omega : W < 2), h2]
  · have hfull : ¬ W ≤ (centeredWindow W ((sortByTimestamp rows).map (fun r => r.temperature)) i).length := by
      rw [centeredWindow_full_iff W hW]
      omega
    constructor
    · simp [if_neg hfull, hc]
    · simp only [if_neg hfull]
      simp only [Option.isSome_none, Bool.false_eq]
      have : ¬ (2 ≤ W ∧ W / 2 ≤ i ∧ i + (W - 1) / 2 < rows.length) := by tauto
      simp [this]

/-! ### Helper lemmas: `unique()` -/

theorem uniqList_go_mem_mono (l : List String) (acc : List String) (x : String)
    (h : x ∈ acc) :
    x ∈ l.foldl (fun acc x => if x ∈ acc then acc else acc ++ [x]) acc := by
  induction l generalizing acc with
  | nil => simpa
  | cons y ys ih =>
    simp only [List.foldl_cons]
    apply ih
    by_cases hy : y ∈ acc
    · simp [hy, h]
    · simp [hy, h]

theorem uniqList_go_mem (l : List String) (acc : List String) (x : String) (h : x ∈ l) :
    x ∈ l.foldl (fun acc x => if x ∈ acc then acc else acc ++ [x]) acc := by
  induction l generalizing acc with
  | nil => simp at h
  | cons y ys ih =>
    simp only [List.foldl_cons]
    rcases List.mem_cons.mp h with rfl | hys
    · apply uniqList_go_mem_mono
      by_cases hy : x ∈ acc
      · simp [hy]
      · simp [hy]
    · exact ih _ hys

theorem uniqList_mem (l : List String) (x : String) (h : x ∈ l) : x ∈ uniqList l :=
  uniqList_go_mem l [] x h

theorem uniqList_go_sub (l : List String) (acc : List String) (x : String)
    (h : x ∈ l.foldl (fun acc x => if x ∈ acc then acc else acc ++ [x]) acc) :
    x ∈ acc ∨ x ∈ l := by
  induction l generalizing acc with
  | nil => simpa using h
  | cons y ys ih =>
    simp only [List.foldl_cons] at h
    rcases ih _ h with hacc | hys
    · by_cases hy : y ∈ acc
      · rw [if_pos hy] at hacc
        exact Or.inl hacc
      · rw [if_neg hy] at hacc
        rcases List.mem_append.mp hacc with h1 | h1
        · exact Or.inl h1
        · simp at h1
          simp [h1]
    · simp [hys]

theorem uniqList_sub (l : List String) (x : String) (h : x ∈ uniqList l) : x ∈ l := by
  rcases uniqList_go_sub l [] x h with h1 | h1
  · simp at h1
  · exact h1

theorem uniqList_go_nodup (l : List String) (acc : List String) (h : acc.Nodup) :
    (l.foldl (fun acc x => if x ∈ acc then acc else acc ++ [x]) acc).Nodup := by
  induction l generalizing acc with
  | nil => simpa
  | cons y ys ih =>
    simp only [List.foldl_cons]
    apply ih
    by_cases hy : y ∈ acc
    · simpa [hy]
    · simp [hy, List.nodup_append, h]

theorem uniqList_nodup (l : List String) : (uniqList l).Nodup :=
  uniqList_go_nodup l [] List.nodup_nil

/-! ### Helper lemmas: `detect_anomalies` as a per-row map -/

theorem isAnomalyVal_of_invalid (k : ℚ) (r : RollingRow)
    (h : ¬ (r.moving_avg.isSome && r.moving_std.isSome) = true) :
    isAnomalyVal k r = false := by
  rw [isAnomalyVal]
  rcases ha : r.moving_avg with _ | a <;> rcases hs : r.moving_std with _ | s <;>
    simp [ha, hs] at h ⊢

theorem scatterAnom_filter_map (p : AnnRow → Bool) (f : AnnRow → Bool) :
    ∀ rows : List AnnRow,
      scatterAnom p ((rows.filter p).map f) rows =
        rows.map (fun r => if p r then { r with anomaly := f r } else r)
  | [] => rfl
  | r :: rest => by
    by_cases hp : p r
    · simp only [List.filter_cons, hp, if_pos, List.map_cons, scatterAnom]
      simp only [List.headD_cons, List.tail_cons]
      rw [scatterAnom_filter_map p f rest]
    · simp only [List.filter_cons, hp, List.map_cons, scatterAnom]
      simp only [Bool.false_eq_true, if_false]
      rw [scatterAnom_filter_map p f rest]

theorem detectStep_map (hasAvg hasStd : Bool) (k : ℚ) (rows : List AnnRow) (c : String) :
    detectStep hasAvg hasStd k rows c =
      rows.map (fun r =>
        if (hasAvg && hasStd) && anomalyMask c r then
          { r with anomaly := isAnomalyVal k r.toRollingRow } else r) := by
  rw [detectStep]
  by_cases h : (hasAvg && hasStd) = true
  · rw [if_pos h, scatterAnom_filter_map]
    simp [h]
  · rw [if_neg h]
    simp only [Bool.not_eq_true] at h
    simp [h]

theorem detect_pointwise (hasAvg hasStd : Bool) (k : ℚ) (c : String) (cs : List String)
    (r : AnnRow) :
    (fun x => if (hasAvg && hasStd) && decide (x.obs.city ∈ cs)
        && (x.moving_avg.isSome && x.moving_std.isSome) then
        { x with anomaly := isAnomalyVal k x.toRollingRow } else x)
      (if (hasAvg && hasStd) && anomalyMask c r then
        { r with anomaly := isAnomalyVal k r.toRollingRow } else r)
    = (if (hasAvg && hasStd) && decide (r.obs.city ∈ c :: cs)
        && (r.moving_avg.isSome && r.moving_std.isSome) then
        { r with anomaly := isAnomalyVal k r.toRollingRow } else r) := by
  by_cases h1 : (hasAvg && hasStd) = true <;>
    by_cases h2 : r.obs.city = c <;>
      by_cases h3 : r.obs.city ∈ cs <;>
        by_cases h4 : r.moving_avg.isSome = true <;>
          by_cases h5 : r.moving_std.isSome = true <;>
            simp_all [anomalyMask, List.mem_cons]

theorem detect_foldl_map (hasAvg hasStd : Bool) (k : ℚ) :
    ∀ (cs : List String) (rows : List AnnRow),
      cs.foldl (detectStep hasAvg hasStd k) rows =
        rows.map (fun r =>
          if (hasAvg && hasStd) && decide (r.obs.city ∈ cs)
              && (r.moving_avg.isSome && r.moving_std.isSome) then
            { r with anomaly := isAnomalyVal k r.toRollingRow } else r)
  | [], rows => by
    simp
  | c :: cs, rows => by
    simp only [List.foldl_cons]
    rw [detectStep_map, detect_foldl_map hasAvg hasStd k cs, List.map_map]
    congr 1
    funext r
    exact detect_pointwise hasAvg hasStd k c cs r

theorem detect_anomalies_map (hasAvg hasStd : Bool) (data : List RollingRow) (k : ℚ) :
    detect_anomalies hasAvg hasStd data k =
      data.map (fun r => ⟨r, hasAvg && hasStd && isAnomalyVal k r⟩) := by
  rw [detect_anomalies, detect_foldl_map, List.map_map]
  apply List.map_congr_left
  intro r hr
  have hmem : r.obs.city ∈ uniqList (data.map (fun r => r.obs.city)) :=
    uniqList_mem _ _ (List.mem_map_of_mem _ hr)
  simp only [Function.comp]
  by_cases hv : (r.moving_avg.isSome && r.moving_std.isSome) = true
  · by_cases h1 : (hasAvg && hasStd) = true
    · rw [if_pos (by simp_all)]
      simp [h1]
    · rw [if_neg (by simp_all)]
      simp only [Bool.not_eq_true] at h1
      simp [h1]
  · rw [if_neg (by simp_all)]
    have hflag : isAnomalyVal k r = false := isAnomalyVal_of_invalid k r hv
    simp [hflag]

/-! ### Helper lemmas: sequential and parallel rolling computation -/

theorem scatterCity_obs (c : String) (a v : List (Option ℚ)) :
    ∀ (k : ℕ) (rows : List RollingRow),
      (scatterCity c a v k rows).map (fun r => r.obs) = rows.map (fun r => r.obs)
  | _, [] => rfl
  | k, r :: rest => by
    by_cases hc : r.obs.city = c
    · simp only [scatterCity, if_pos hc, List.map_cons]
      rw [scatterCity_obs c a v (k + 1) rest]
    · simp only [scatterCity, if_neg hc, List.map_cons]
      rw [scatterCity_obs c a v k rest]

theorem scatterCity_filter_ne (c cOther : String) (hne : cOther ≠ c) (a v : List (Option ℚ)) :
    ∀ (k : ℕ) (rows : List RollingRow),
      (scatterCity c a v k rows).filter (fun r => decide (r.obs.city = cOther)) =
        rows.filter (fun r => decide (r.obs.city = cOther))
  | _, [] => rfl
  | k, r :: rest => by
    by_cases hc : r.obs.city = c
    · have hno : ¬ (r.obs.city = cOther) := by
        rw [hc]
        exact fun h => hne h.symm
      simp only [scatterCity, if_pos hc, List.filter_cons]
      simp [hno, scatterCity_filter_ne c cOther hne a v (k + 1) rest]
    · simp only [scatterCity, if_neg hc, List.filter_cons]
      rw [scatterCity_filter_ne c cOther hne a v k rest]

theorem scatterCity_filter_eq (c : String) (a v : List (Option ℚ)) :
    ∀ (k : ℕ) (rows : List RollingRow),
      (scatterCity c a v k rows).filter (fun r => decide (r.obs.city = c)) =
        numberFromObs a v k
          ((rows.filter (fun r => decide (r.obs.city = c))).map (fun r => r.obs))
  | _, [] => rfl
  | k, r :: rest => by
    by_cases hc : r.obs.city = c
    · simp only [scatterCity, if_pos hc, List.filter_cons, List.map_cons]
      simp [hc, numberFromObs, scatterCity_filter_eq c a v (k + 1) rest]
    · simp only [scatterCity, if_neg hc, List.filter_cons]
      simp [hc, scatterCity_filter_eq c a v k rest]

theorem filter_map_obs (c : String) :
    ∀ rows : List RollingRow,
      (rows.filter (fun r => decide (r.obs.city = c))).map (fun r => r.obs)
        = (rows.map (fun r => r.obs)).filter (fun o => decide (o.city = c))
  | [] => rfl
  | r :: rest => by
    by_cases hc : r.obs.city = c <;> simp [hc, filter_map_obs c rest]

theorem assignCitySeq_obs (f g : List ℚ → Option ℚ) (W : ℕ)
    (rows : List RollingRow) (c : String) :
    (assignCitySeq f g W rows c).map (fun r => r.obs) = rows.map (fun r => r.obs) := by
  rw [assignCitySeq, scatterCity_obs]

theorem foldl_assign_obs (f g : List ℚ → Option ℚ) (W : ℕ) :
    ∀ (cs : List String) (acc : List RollingRow),
      ((cs.foldl (assignCitySeq f g W) acc).map (fun r => r.obs)) = acc.map (fun r => r.obs)
  | [], _ => rfl
  | cd :: cs, acc => by
    simp only [List.foldl_cons]
    rw [foldl_assign_obs f g W cs, assignCitySeq_obs]

theorem foldl_assign_skip (f g : List ℚ → Option ℚ) (W : ℕ) (c : String) :
    ∀ (cs : List String), (∀ cd ∈ cs, cd ≠ c) →
      ∀ acc : List RollingRow,
        (cs.foldl (assignCitySeq f g W) acc).filter (fun r => decide (r.obs.city = c)) =
          acc.filter (fun r => decide (r.obs.city = c))
  | [], _, _ => rfl
  | cd :: cs, h, acc => by
    simp only [List.foldl_cons]
    rw [foldl_assign_skip f g W c cs (fun x hx => h x (List.mem_cons_of_mem _ hx)) _]
    rw [assignCitySeq,
      scatterCity_filter_ne cd c (fun hcc => h cd (List.mem_cons_self _ _) hcc.symm) _ _]

theorem foldl_assign_filter (f g : List ℚ → Option ℚ) (W : ℕ) (c : String) (data : List Obs) :
    ∀ (cs : List String) (acc : List RollingRow), cs.Nodup → c ∈ cs →
      acc.map (fun r => r.obs) = data →
      (cs.foldl (assignCitySeq f g W) acc).filter (fun r => decide (r.obs.city = c)) =
        numberFromObs
          (rollingApply f W ((sortByTimestamp (cityFilter data c)).map (fun r => r.temperature)))
          (rollingApply g W ((sortByTimestamp (cityFilter data c)).map (fun r => r.temperature)))
          0 (cityFilter data c)
  | [], _, _, hc, _ => by simp at hc
  | cd :: cs, acc, hnd, hc, hobs => by
    simp only [List.foldl_cons]
    rcases List.mem_cons.mp hc with rfl | hcs
    · have hnotin : c ∉ cs := (List.nodup_cons.mp hnd).1
      rw [foldl_assign_skip f g W c cs (fun x hx h => hnotin (h ▸ hx)) _]
      have hkey : (acc.filter (fun r => decide (r.obs.city = c))).map (fun r => r.obs)
          = cityFilter data c := by
        rw [filter_map_obs, hobs, cityFilter]
      rw [assignCitySeq, scatterCity_filter_eq, hkey]
    · have hobs2 : (assignCitySeq f g W acc cd).map (fun r => r.obs) = data := by
        rw [assignCitySeq_obs, hobs]
      exact foldl_assign_filter f g W c data cs _ (List.nodup_cons.mp hnd).2 hcs hobs2

theorem numberFromObs_mem_obs (a v : List (Option ℚ)) :
    ∀ (k : ℕ) (l : List Obs) (r : RollingRow), r ∈ numberFromObs a v k l → r.obs ∈ l
  | _, [], r, h => by simp [numberFromObs] at h
  | k, x :: rest, r, h => by
    rcases List.mem_cons.mp h with rfl | h2
    · exact List.mem_cons_self _ _
    · exact List.mem_cons_of_mem _ (numberFromObs_mem_obs a v (k + 1) rest r h2)

theorem process_city_with_city (f g : List ℚ → Option ℚ) (W : ℕ) (dataC : List Obs)
    (c : String) (hall : ∀ o ∈ dataC, o.city = c) :
    ∀ r ∈ process_city_with f g W dataC, r.obs.city = c := by
  intro r hr
  have h1 : r.obs ∈ sortByTimestamp dataC :=
    numberFromObs_mem_obs _ _ _ _ r hr
  have h2 : r.obs ∈ dataC := by
    rw [sortByTimestamp] at h1
    exact (List.mem_insertionSort tsLE).mp h1
  exact hall _ h2

theorem flatMap_filter_city (B : String → List RollingRow) (c : String)
    (hB : ∀ cd, ∀ r ∈ B cd, r.obs.city = cd) :
    ∀ cs : List String, cs.Nodup →
      (cs.flatMap B).filter (fun r => decide (r.obs.city = c)) =
        if c ∈ cs then B c else []
  | [], _ => by simp
  | cd :: cs, hnd => by
    simp only [List.flatMap_cons, List.filter_append]
    by_cases hcd : cd = c
    · subst hcd
      have h1 : (B cd).filter (fun r => decide (r.obs.city = cd)) = B cd :=
        List.filter_eq_self.mpr (fun r hr => by simp [hB cd r hr])
      have hnotin : cd ∉ cs := (List.nodup_cons.mp hnd).1
      rw [h1, flatMap_filter_city B cd hB cs (List.nodup_cons.mp hnd).2, if_neg hnotin,
        if_pos (List.mem_cons_self _ _)]
      simp
    · have h1 : (B cd).filter (fun r => decide (r.obs.city = c)) = [] :=
        List.filter_eq_nil_iff.mpr (fun r hr => by simp [hB cd r hr, hcd])
      rw [h1, flatMap_filter_city B c hB cs (List.nodup_cons.mp hnd).2]
      by_cases hmem : c ∈ cs
      · rw [if_pos hmem, if_pos (List.mem_cons_of_mem _ hmem)]
        simp
      · rw [if_neg hmem, if_neg (fun h => by
          rcases List.mem_cons.mp h with h2 | h2
          · exact hcd h2.symm
          · exact hmem h2)]
        simp

theorem par_filter (f g : List ℚ → Option ℚ) (data : List Obs) (W : ℕ) (c : String) :
    (calculate_moving_average_parallel_with f g data W).filter
        (fun r => decide (r.obs.city = c)) =
      process_city_with f g W (cityFilter data c) := by
  rw [calculate_moving_average_parallel_with]
  rw [flatMap_filter_city _ c
    (fun cd r hr => process_city_with_city f g W _ cd
      (fun o ho => by simpa using List.of_mem_filter ho) r hr)
    _ (uniqList_nodup _)]
  by_cases hc : c ∈ uniqList (data.map (fun r => r.city))
  · rw [if_pos hc]
  · rw [if_neg hc]
    have hempty : cityFilter data c = [] :=
      List.filter_eq_nil_iff.mpr (fun o ho => by
        simp only [decide_eq_true_eq]
        intro hcity
        exact hc (uniqList_mem _ _ (List.mem_map.mpr ⟨o, ho, hcity⟩)))
    rw [hempty]
    rfl

/-! ### Claim theorems -/

/-- C9: the live-reading cross-checker classifies a reading `r` against
    seasonal statistics `(m, s)` as anomalous exactly when `|r − m| > 2·s`,
    with the fixed multiplier 2 (the user-tunable detector threshold does not
    occur in it); in particular reading 40 with mean 10 and std 5 is
    anomalous, and reading 12 with the same statistics is not. -/
theorem cross_check_two_sigma :
    (∀ r m s : ℚ, is_anomalous r m s = true ↔ |r - m| > 2 * s)
    ∧ is_anomalous 40 10 5 = true ∧ is_anomalous 12 10 5 = false := by
  refine ⟨fun r m s => ?_, by norm_num [is_anomalous], by norm_num [is_anomalous]⟩
  rw [is_anomalous]
  simp only [Bool.or_eq_true, decide_eq_true_eq]
  constructor
  · rintro (h | h)
    · exact lt_abs.mpr (Or.inl (by linarith))
    · exact lt_abs.mpr (Or.inr (by linarith))
  · intro h
    rcases lt_abs.mp h with h1 | h1
    · exact Or.inl (by linarith)
    · exact Or.inr (by linarith)

/-- C10: when the `moving_avg` or the `moving_std` column is missing from the
    frame, `detect_anomalies` returns the rows unchanged with `anomaly=False`
    everywhere (and, being pure on a copy, never touches its input). -/
theorem detect_missing_columns (hasAvg hasStd : Bool) (rows : List RollingRow) (k : ℚ)
    (h : hasAvg = false ∨ hasStd = false) :
    detect_anomalies hasAvg hasStd rows k = rows.map (fun r => ⟨r, false⟩) := by
  rw [detect_anomalies_map]
  rcases h with rfl | rfl <;> simp

/-- Witness for C10 at a concrete frame lacking the `moving_avg` column. -/
theorem detect_missing_columns_witness :
    detect_anomalies false true [⟨⟨"A", 0, 10, "w"⟩, some 0, some 1⟩] 2 =
      [⟨⟨⟨"A", 0, 10, "w"⟩, some 0, some 1⟩, false⟩] :=
  detect_missing_columns false true [⟨⟨"A", 0, 10, "w"⟩, some 0, some 1⟩] 2 (Or.inl rfl)

/-- C4: on a frame carrying both rolling columns, `detect_anomalies` keeps
    every row and sets its `anomaly` flag from that row alone: `true` exactly
    when both statistics are present and the temperature lies strictly outside
    `[moving_avg − k·moving_std, moving_avg + k·moving_std]`; rows with an
    absent statistic get `false`. -/
theorem detect_anomalies_rowwise (rows : List RollingRow) (k : ℚ) (j : ℕ)
    (hj : j < rows.length) :
    (detect_anomalies true true rows k).length = rows.length
    ∧ ((detect_anomalies true true rows k).getD j default).toRollingRow = rows.getD j default
    ∧ (((detect_anomalies true true rows k).getD j default).anomaly = true
        ↔ ∃ a s, (rows.getD j default).moving_avg = some a
            ∧ (rows.getD j default).moving_std = some s
            ∧ ((rows.getD j default).obs.temperature > a + k * s
               ∨ (rows.getD j default).obs.temperature < a - k * s)) := by
  have hmap := detect_anomalies_map true true rows k
  have hget : (detect_anomalies true true rows k).getD j default =
      ⟨rows.getD j default, true && true && isAnomalyVal k (rows.getD j default)⟩ := by
    rw [hmap, List.getD_eq_getElem?_getD, List.getElem?_map, List.getElem?_eq_getElem hj]
    simp only [Option.map_some', Option.getD_some]
    rw [List.getD_eq_getElem rows default hj]
  refine ⟨by rw [hmap]; simp, by rw [hget], ?_⟩
  rw [hget]
  simp only [Bool.true_and]
  generalize rows.getD j default = rj
  rcases rj with ⟨o, ma, ms⟩
  rcases ma with _ | a <;> rcases ms with _ | s <;> simp [isAnomalyVal]

/-- Witness for C4 at a concrete one-row frame. -/
theorem detect_anomalies_rowwise_witness :
    (detect_anomalies true true [⟨⟨"A", 0, 10, "w"⟩, some 0, some 1⟩] 2).length =
        [(⟨⟨"A", 0, 10, "w"⟩, some 0, some 1⟩ : RollingRow)].length
    ∧ ((detect_anomalies true true [⟨⟨"A", 0, 10, "w"⟩, some 0, some 1⟩] 2).getD 0
        default).toRollingRow =
        [(⟨⟨"A", 0, 10, "w"⟩, some 0, some 1⟩ : RollingRow)].getD 0 default
    ∧ (((detect_anomalies true true [⟨⟨"A", 0, 10, "w"⟩, some 0, some 1⟩] 2).getD 0
        default).anomaly = true
        ↔ ∃ a s,
            ([(⟨⟨"A", 0, 10, "w"⟩, some 0, some 1⟩ : RollingRow)].getD 0
              default).moving_avg = some a
            ∧ ([(⟨⟨"A", 0, 10, "w"⟩, some 0, some 1⟩ : RollingRow)].getD 0
              default).moving_std = some s
            ∧ (([(⟨⟨"A", 0, 10, "w"⟩, some 0, some 1⟩ : RollingRow)].getD 0
                default).obs.temperature > a + 2 * s
               ∨ ([(⟨⟨"A", 0, 10, "w"⟩, some 0, some 1⟩ : RollingRow)].getD 0
                default).obs.temperature < a - 2 * s)) :=
  detect_anomalies_rowwise [⟨⟨"A", 0, 10, "w"⟩, some 0, some 1⟩] 2 0 (by decide)

/-- C5: on a frame whose present `moving_std` values are nonnegative (as all
    rolling standard deviations are), raising the threshold never increases
    the number of rows flagged by `detect_anomalies`. -/
theorem anomaly_count_antitone (rows : List RollingRow) (k₁ k₂ : ℚ)
    (hstd : ∀ r ∈ rows, ∀ s, r.moving_std = some s → 0 ≤ s) (hk : k₁ ≤ k₂) :
    anomalyCount rows k₂ ≤ anomalyCount rows k₁ := by
  have h1 : ∀ k : ℚ, anomalyCount rows k =
      rows.countP (fun r => true && true && isAnomalyVal k r) := by
    intro k
    rw [anomalyCount, detect_anomalies_map, ← List.countP_eq_length_filter, List.countP_map]
    rfl
  rw [h1, h1]
  apply List.countP_mono_left
  intro r hr hflag
  simp only [Bool.true_and] at hflag ⊢
  rcases ha : r.moving_avg with _ | a <;> rcases hs : r.moving_std with _ | s <;>
    simp [isAnomalyVal, ha, hs] at hflag ⊢
  have hs0 : 0 ≤ s := hstd r hr s hs
  have hmul : k₁ * s ≤ k₂ * s := mul_le_mul_of_nonneg_right hk hs0
  rcases hflag with h | h
  · exact Or.inl (by linarith)
  · exact Or.inr (by linarith)

/-- Witness for C5 at a concrete one-row frame and thresholds 1 ≤ 2. -/
theorem anomaly_count_antitone_witness :
    anomalyCount [⟨⟨"A", 0, 10, "w"⟩, some 0, some 1⟩] 2 ≤
      anomalyCount [⟨⟨"A", 0, 10, "w"⟩, some 0, some 1⟩] 1 :=
  anomaly_count_antitone [⟨⟨"A", 0, 10, "w"⟩, some 0, some 1⟩] 1 2
    (by
      intro r hr s hsome
      simp only [List.mem_singleton] at hr
      subst hr
      simp only [] at hsome
      cases hsome
      norm_num)
    (by norm_num)

/-- C2 (amended): on a city partition of `n` rows with window `W ≥ 1`, the
    rolling `moving_avg` is absent at exactly the first `⌊W/2⌋` and the last
    `⌊(W−1)/2⌋` positions of the chronologically sorted series — i.e. defined
    exactly when `⌊W/2⌋ ≤ i` and `i + ⌊(W−1)/2⌋ < n` — and `moving_std` has
    the same absent set except that for `W = 1` it is absent at every position
    (sample standard deviation of a single observation).  For odd `W ≥ 3` this
    coincides with the claimed first/last `⌊W/2⌋` boundary policy; for even
    `W` the trailing absent region is one shorter than claimed. -/
theorem rolling_boundary_presence (W : ℕ) (hW : 1 ≤ W) (rows : List Obs) (i : ℕ)
    (hi : i < rows.length) :
    (((process_city_for_parallel W rows).getD i default).moving_avg.isSome
        = decide (W / 2 ≤ i ∧ i + (W - 1) / 2 < rows.length))
    ∧ (((process_city_for_parallel W rows).getD i default).moving_std.isSome
        = decide (2 ≤ W ∧ W / 2 ≤ i ∧ i + (W - 1) / 2 < rows.length)) :=
  process_presence W hW rows i hi

/-- Witness for C2 (amended) at `W = 3`, a three-row city, position 1. -/
theorem rolling_boundary_presence_witness :
    (((process_city_for_parallel 3
          [⟨"A", 0, 1, "w"⟩, ⟨"A", 1, 2, "w"⟩, ⟨"A", 2, 3, "w"⟩]).getD 1
        default).moving_avg.isSome
      = decide (3 / 2 ≤ 1 ∧ 1 + (3 - 1) / 2 <
          ([⟨"A", 0, 1, "w"⟩, ⟨"A", 1, 2, "w"⟩, ⟨"A", 2, 3, "w"⟩] : List Obs).length))
    ∧ (((process_city_for_parallel 3
          [⟨"A", 0, 1, "w"⟩, ⟨"A", 1, 2, "w"⟩, ⟨"A", 2, 3, "w"⟩]).getD 1
        default).moving_std.isSome
      = decide (2 ≤ 3 ∧ 3 / 2 ≤ 1 ∧ 1 + (3 - 1) / 2 <
          ([⟨"A", 0, 1, "w"⟩, ⟨"A", 1, 2, "w"⟩, ⟨"A", 2, 3, "w"⟩] : List Obs).length)) :=
  rolling_boundary_presence 3 (by decide)
    [⟨"A", 0, 1, "w"⟩, ⟨"A", 1, 2, "w"⟩, ⟨"A", 2, 3, "w"⟩] 1 (by decide)

/-- Counterexample to C2 as stated: with the even window `W = 2` on a two-row
    city the claim puts the last `⌊2/2⌋ = 1` position in the absent set, but
    the code defines `moving_avg` there (the centered window is left-heavy);
    and with `W = 1` the claim makes `moving_std` defined at every position
    (`⌊1/2⌋ = 0`), but the code yields NaN at both rows (sample standard
    deviation of a single observation). -/
theorem rolling_boundary_counterexample :
    ((process_city_for_parallel 2 [⟨"A", 0, 1, "w"⟩, ⟨"A", 1, 2, "w"⟩]).map
        (fun r => r.moving_avg.isSome) = [false, true])
    ∧ ((process_city_for_parallel 1 [⟨"A", 0, 1, "w"⟩, ⟨"A", 1, 2, "w"⟩]).map
        (fun r => r.moving_std.isSome) = [false, false]) := by
  constructor <;> decide

/-- C3: a seven-row single-city series with window `W = 7` yields exactly one
    row with a defined `moving_avg`, at sorted position 3 (the unique position
    where the full centered window fits); the other six rows are absent. -/
theorem window7_unique_full_position (rows : List Obs) (h : rows.length = 7) :
    (process_city_for_parallel 7 rows).map (fun r => r.moving_avg.isSome)
      = [false, false, false, true, false, false, false] := by
  have hsortlen : (sortByTimestamp rows).length = rows.length := by
    simp [sortByTimestamp, List.length_insertionSort]
  have hlen : (process_city_for_parallel 7 rows).length = 7 := by
    rw [process_city_for_parallel, process_city_with, numberFromObs_length]
    omega
  apply List.ext_getElem (by simp [hlen])
  intro i h1 h2
  have hi7 : i < 7 := by simpa [hlen] using h1
  have hgd : ∀ hh : i < (process_city_for_parallel 7 rows).length,
      (process_city_for_parallel 7 rows)[i] =
        (process_city_for_parallel 7 rows).getD i default := by
    intro hh
    rw [List.getD_eq_getElem _ default hh]
  rw [List.getElem_map, hgd (by omega)]
  rw [(process_presence 7 (by decide) rows i (by omega)).1]
  rw [h]
  interval_cases i <;> rfl

/-- Witness for C3 at a concrete seven-row city series. -/
theorem window7_unique_full_position_witness :
    (process_city_for_parallel 7
        [⟨"A", 0, 1, "w"⟩, ⟨"A", 1, 2, "w"⟩, ⟨"A", 2, 3, "w"⟩, ⟨"A", 3, 4, "w"⟩,
         ⟨"A", 4, 5, "w"⟩, ⟨"A", 5, 6, "w"⟩, ⟨"A", 6, 7, "w"⟩]).map
      (fun r => r.moving_avg.isSome)
      = [false, false, false, true, false, false, false] :=
  window7_unique_full_position
    [⟨"A", 0, 1, "w"⟩, ⟨"A", 1, 2, "w"⟩, ⟨"A", 2, 3, "w"⟩, ⟨"A", 3, 4, "w"⟩,
     ⟨"A", 4, 5, "w"⟩, ⟨"A", 5, 6, "w"⟩, ⟨"A", 6, 7, "w"⟩] (by decide)

/-- C1: on any dataset whose city partitions are chronologically ordered (the
    Dataset invariant of the data model: observations are ordered by timestamp
    within a city) and any window size, the sequential and the parallel rolling
    computation agree per city: for every city the two result tables restrict
    to exactly the same ordered list of rows, with identical
    `(moving_avg, moving_std)` values at every `(city, timestamp)` key, so the
    two results differ at most in global row ordering. -/
theorem seq_par_same_city_mapping (data : List Obs) (W : ℕ)
    (hsort : ∀ c, List.Sorted tsLE (cityFilter data c)) (c : String) :
    (calculate_moving_average_sequential data W).filter
        (fun r => decide (r.obs.city = c)) =
      (calculate_moving_average_parallel data W).filter
        (fun r => decide (r.obs.city = c)) := by
  rw [calculate_moving_average_sequential, calculate_moving_average_parallel, par_filter,
    calculate_moving_average_sequential_with]
  have hobs : ((data.map (fun r => (⟨r, none, none⟩ : RollingRow))).map (fun r => r.obs))
      = data := by
    rw [List.map_map]
    have hid : ((fun (r : RollingRow) => r.obs) ∘ fun r => (⟨r, none, none⟩ : RollingRow))
        = id := rfl
    rw [hid, List.map_id]
  by_cases hc : c ∈ uniqList (data.map (fun r => r.city))
  · rw [foldl_assign_filter meanQ sampleVarQ W c data _ _ (uniqList_nodup _) hc hobs,
      process_city_with]
    have hss : sortByTimestamp (cityFilter data c) = cityFilter data c := by
      rw [sortByTimestamp]
      exact (hsort c).insertionSort_eq
    rw [hss]
  · rw [foldl_assign_skip meanQ sampleVarQ W c _ (fun cd hcd h => hc (h ▸ hcd)) _]
    have h1 : (data.map (fun r => (⟨r, none, none⟩ : RollingRow))).filter
        (fun r => decide (r.obs.city = c)) = [] :=
      List.filter_eq_nil_iff.mpr (fun rr hrr => by
        simp only [decide_eq_true_eq]
        intro hcity
        rcases List.mem_map.mp hrr with ⟨r, hr, rfl⟩
        exact hc (uniqList_mem _ _ (List.mem_map.mpr ⟨r, hr, hcity⟩)))
    have h2 : cityFilter data c = [] :=
      List.filter_eq_nil_iff.mpr (fun o ho => by
        simp only [decide_eq_true_eq]
        intro hcity
        exact hc (uniqList_mem _ _ (List.mem_map.mpr ⟨o, ho, hcity⟩)))
    rw [h1, h2]
    rfl

/-- Witness for C1 at a concrete sorted two-city dataset, window 3, city A. -/
theorem seq_par_same_city_mapping_witness :
    (calculate_moving_average_sequential
        [⟨"A", 0, 1, "w"⟩, ⟨"B", 0, 5, "w"⟩, ⟨"A", 1, 2, "w"⟩, ⟨"B", 1, 6, "w"⟩,
         ⟨"A", 2, 3, "w"⟩] 3).filter (fun r => decide (r.obs.city = "A")) =
      (calculate_moving_average_parallel
        [⟨"A", 0, 1, "w"⟩, ⟨"B", 0, 5, "w"⟩, ⟨"A", 1, 2, "w"⟩, ⟨"B", 1, 6, "w"⟩,
         ⟨"A", 2, 3, "w"⟩] 3).filter (fun r => decide (r.obs.city = "A")) :=
  seq_par_same_city_mapping
    [⟨"A", 0, 1, "w"⟩, ⟨"B", 0, 5, "w"⟩, ⟨"A", 1, 2, "w"⟩, ⟨"B", 1, 6, "w"⟩,
     ⟨"A", 2, 3, "w"⟩] 3
    (fun c => List.Pairwise.sublist (List.filter_sublist _) (by decide)) "A"

/-- C7: the synchronous fetch is total on every attempt outcome — it returns
    either a success record or a failure record, never letting an exception
    escape: a raised exception (network failure, timeout, undecodable body)
    becomes a failure with its message and no code; a non-200 response becomes
    a failure carrying the body message (default `"Unknown error"`) and the
    body `cod` field (the upstream status code whenever the service supplies
    it); a 200 response with a malformed body becomes a failure with the
    extraction error message. -/
theorem sync_fetch_total (now : ℤ) (city : String) (outcome : FetchOutcome) :
    ((∃ rec, get_current_temperature_sync now city outcome = .success rec)
      ∨ (∃ e cod, get_current_temperature_sync now city outcome = .failure e cod))
    ∧ (∀ msg, outcome = .raised msg →
        get_current_temperature_sync now city outcome = .failure (.jstr msg) none)
    ∧ (∀ status body, outcome = .response status body → status ≠ 200 →
        get_current_temperature_sync now city outcome
          = .failure ((jget body "message").getD (.jstr "Unknown error")) (jget body "cod"))
    ∧ (∀ body e, outcome = .response 200 body → extractSuccess now city body = .error e →
        get_current_temperature_sync now city outcome = .failure (.jstr e) none) := by
  refine ⟨?_, ?_, ?_, ?_⟩
  · rcases outcome with msg | ⟨status, body⟩
    · exact Or.inr ⟨_, _, rfl⟩
    · by_cases hs : status = 200
      · subst hs
        rcases hx : extractSuccess now city body with e | rec
        · exact Or.inr ⟨.jstr e, none, by simp [get_current_temperature_sync, hx]⟩
        · exact Or.inl ⟨rec, by simp [get_current_temperature_sync, hx]⟩
      · exact Or.inr ⟨(jget body "message").getD (.jstr "Unknown error"), jget body "cod",
          by simp [get_current_temperature_sync, hs]⟩
  · rintro msg rfl
    rfl
  · rintro status body rfl hs
    simp [get_current_temperature_sync, hs]
  · rintro body e rfl hx
    simp [get_current_temperature_sync, hx]

/-- Witness for C7: a 401 response with a message body yields the structured
    failure with the upstream message and code. -/
theorem sync_fetch_total_witness :
    get_current_temperature_sync 0 "Moscow"
        (.response 401 (.jobj [("cod", .jnum 401), ("message", .jstr "Invalid API key")]))
      = .failure (.jstr "Invalid API key") (some (.jnum 401)) := by
  have h := (sync_fetch_total 0 "Moscow"
      (.response 401 (.jobj [("cod", .jnum 401), ("message", .jstr "Invalid API key")]))).2.2.1
      401 (.jobj [("cod", .jnum 401), ("message", .jstr "Invalid API key")]) rfl (by decide)
  rw [h]
  rfl

/-- C8: the concurrent batch fetch returns exactly one result per requested
    city, in input order, each equal to the single-city fetch on that city's
    own outcome; the result at a position depends only on that city's outcome,
    so one city's failure cannot abort or alter another's result. -/
theorem batch_fetch_orderly (now : ℤ) (env : String → FetchOutcome) (cities : List String) :
    (get_multiple_temperatures_async now env cities).length = cities.length
    ∧ (∀ i, i < cities.length →
        (get_multiple_temperatures_async now env cities).getD i (.failure .jnull none)
          = get_current_temperature_async now (cities.getD i "") (env (cities.getD i "")))
    ∧ (∀ envB i, i < cities.length →
        env (cities.getD i "") = envB (cities.getD i "") →
        (get_multiple_temperatures_async now env cities).getD i (.failure .jnull none)
          = (get_multiple_temperatures_async now envB cities).getD i (.failure .jnull none)) := by
  have hget : ∀ (e : String → FetchOutcome) i, i < cities.length →
      (get_multiple_temperatures_async now e cities).getD i (.failure .jnull none)
        = get_current_temperature_async now (cities.getD i "") (e (cities.getD i "")) := by
    intro e i hi
    rw [get_multiple_temperatures_async, List.getD_eq_getElem?_getD, List.getElem?_map,
      List.getElem?_eq_getElem hi]
    simp only [Option.map_some', Option.getD_some]
    rw [List.getD_eq_getElem cities "" hi]
  refine ⟨by simp [get_multiple_temperatures_async], hget env, ?_⟩
  intro envB i hi heq
  rw [hget env i hi, hget envB i hi, heq]

/-- Witness for C8: fetching `["A", "B"]` where A's request returns 401 and
    B's returns 200 yields two results in order — a failure with code 401,
    then a success with the populated temperature. -/
theorem batch_fetch_orderly_witness :
    ((get_multiple_temperatures_async 0
        (fun c => if c = "A" then
            .response 401 (.jobj [("cod", .jnum 401), ("message", .jstr "Invalid API key")])
          else
            .response 200 (.jobj
              [("main", .jobj [("temp", .jnum 7), ("feels_like", .jnum 5),
                 ("humidity", .jnum 60), ("pressure", .jnum 1000)]),
               ("weather", .jarr [.jobj [("description", .jstr "clear"),
                 ("icon", .jstr "01d")]])]))
        ["A", "B"]).length = 2)
    ∧ ((get_multiple_temperatures_async 0
        (fun c => if c = "A" then
            .response 401 (.jobj [("cod", .jnum 401), ("message", .jstr "Invalid API key")])
          else
            .response 200 (.jobj
              [("main", .jobj [("temp", .jnum 7), ("feels_like", .jnum 5),
                 ("humidity", .jnum 60), ("pressure", .jnum 1000)]),
               ("weather", .jarr [.jobj [("description", .jstr "clear"),
                 ("icon", .jstr "01d")]])]))
        ["A", "B"]).getD 0 (.failure .jnull none)
      = .failure (.jstr "Invalid API key") (some (.jnum 401)))
    ∧ ((get_multiple_temperatures_async 0
        (fun c => if c = "A" then
            .response 401 (.jobj [("cod", .jnum 401), ("message", .jstr "Invalid API key")])
          else
            .response 200 (.jobj
              [("main", .jobj [("temp", .jnum 7), ("feels_like", .jnum 5),
                 ("humidity", .jnum 60), ("pressure", .jnum 1000)]),
               ("weather", .jarr [.jobj [("description", .jstr "clear"),
                 ("icon", .jstr "01d")]])]))
        ["A", "B"]).getD 1 (.failure .jnull none)
      = .success ⟨"B", .jnum 7, .jnum 5, .jnum 60, .jnum 1000, .jstr "clear",
          .jstr "01d", 0⟩) := by
  refine ⟨(batch_fetch_orderly 0 _ ["A", "B"]).1, ?_, ?_⟩
  · rw [(batch_fetch_orderly 0 _ ["A", "B"]).2.1 0 (by decide)]
    rfl
  · rw [(batch_fetch_orderly 0 _ ["A", "B"]).2.1 1 (by decide)]
    rfl

/-! ### Helper lemmas: seasonal aggregation -/

theorem foldl_min_replicate (v : ℚ) : ∀ m : ℕ, (List.replicate m v).foldl min v = v
  | 0 => rfl
  | m + 1 => by
    rw [List.replicate_succ, List.foldl_cons, min_self]
    exact foldl_min_replicate v m

theorem foldl_max_replicate (v : ℚ) : ∀ m : ℕ, (List.replicate m v).foldl max v = v
  | 0 => rfl
  | m + 1 => by
    rw [List.replicate_succ, List.foldl_cons, max_self]
    exact foldl_max_replicate v m

theorem listMin_replicate (n : ℕ) (hn : n ≠ 0) (v : ℚ) :
    listMin (List.replicate n v) = v := by
  cases n with
  | zero => exact absurd rfl hn
  | succ m =>
    rw [List.replicate_succ, listMin]
    exact foldl_min_replicate v m

theorem listMax_replicate (n : ℕ) (hn : n ≠ 0) (v : ℚ) :
    listMax (List.replicate n v) = v := by
  cases n with
  | zero => exact absurd rfl hn
  | succ m =>
    rw [List.replicate_succ, listMax]
    exact foldl_max_replicate v m

theorem sqrtRound2_zero : sqrtRound2 0 = 0 := by
  norm_num [sqrtRound2]

/-- C6 (amended): seasonal aggregation of a dataset of `N ≥ 1` rows sharing
    one city, one season and one temperature `v` yields exactly one output
    row, with mean, min and max equal to `v` (rounded to two decimals),
    count `N`, and standard deviation 0 when `N ≥ 2` but absent (NaN) when
    `N = 1`, since the sample standard deviation of a single observation is
    undefined; no row appears for any other (city, season) pair. -/
theorem seasonal_constant_stats (c s : String) (v : ℚ) (data : List Obs)
    (hne : data ≠ [])
    (hall : ∀ r ∈ data, r.city = c ∧ r.season = s ∧ r.temperature = v) :
    calculate_seasonal_stats data =
      [{ city := c, season := s, temperature_mean := round2 v,
         temperature_std := if data.length < 2 then none else some 0,
         temperature_min := round2 v, temperature_max := round2 v,
         temperature_count := data.length }] := by
  have hn0 : data.length ≠ 0 := fun h => hne (List.length_eq_zero.mp h)
  have hkeys : groupKeys data = [(c, s)] := by
    rw [groupKeys]
    have hmap : data.map (fun r => (r.city, r.season)) = List.replicate data.length (c, s) :=
      List.eq_replicate_iff.mpr ⟨by simp, fun p hp => by
        rcases List.mem_map.mp hp with ⟨r, hr, rfl⟩
        rcases hall r hr with ⟨h1, h2, _⟩
        rw [h1, h2]⟩
    rw [hmap, List.replicate_dedup hn0]
    rfl
  have hfilter : data.filter (fun r => decide (r.city = c ∧ r.season = s)) = data :=
    List.filter_eq_self.mpr (fun r hr => by
      rcases hall r hr with ⟨h1, h2, _⟩
      simp [h1, h2])
  have htemps : data.map (fun r => r.temperature) = List.replicate data.length v :=
    List.eq_replicate_iff.mpr ⟨by simp, fun t ht => by
      rcases List.mem_map.mp ht with ⟨r, hr, rfl⟩
      exact (hall r hr).2.2⟩
  have hsum : (data.map (fun r => r.temperature)).sum = (data.length : ℚ) * v := by
    rw [htemps, List.sum_replicate, nsmul_eq_mul]
  have hmean : (data.map (fun r => r.temperature)).sum / ((data.length : ℚ)) = v := by
    rw [hsum, mul_div_cancel_left₀ v (Nat.cast_ne_zero.mpr hn0)]
  rw [calculate_seasonal_stats, hkeys]
  simp only [List.map_cons, List.map_nil]
  rw [hfilter, hmean, htemps, List.map_replicate,
    listMin_replicate _ hn0, listMax_replicate _ hn0]
  simp [sub_self, List.sum_replicate, sqrtRound2_zero]

/-- Witness for C6 (amended) at two identical rows of one city and season. -/
theorem seasonal_constant_stats_witness :
    calculate_seasonal_stats [⟨"A", 0, 5, "winter"⟩, ⟨"A", 1, 5, "winter"⟩] =
      [{ city := "A", season := "winter", temperature_mean := round2 5,
         temperature_std := some 0, temperature_min := round2 5,
         temperature_max := round2 5, temperature_count := 2 }] :=
  seasonal_constant_stats "A" "winter" 5
    [⟨"A", 0, 5, "winter"⟩, ⟨"A", 1, 5, "winter"⟩]
    (by simp)
    (by
      intro r hr
      simp only [List.mem_cons, List.not_mem_nil, or_false] at hr
      rcases hr with rfl | rfl
      · exact ⟨rfl, rfl, rfl⟩
      · exact ⟨rfl, rfl, rfl⟩)

/-- Counterexample to C6 as stated: for `N = 1` the aggregated
    `temperature_std` is absent (pandas sample standard deviation of a single
    value is NaN), not the claimed 0. -/
theorem seasonal_single_row_counterexample :
    (calculate_seasonal_stats [⟨"A", 0, 5, "winter"⟩]).map (fun r => r.temperature_std)
      = [none] ∧ (none : Option ℚ) ≠ some 0 := by
  constructor
  · rfl
  · decide

/-- Witness for C9 at the spec's concrete reading. -/
theorem cross_check_two_sigma_witness : is_anomalous 40 10 5 = true :=
  cross_check_two_sigma.2.1
